import Mathlib

/-!
Verification development for the ticket-issuance and transfer core of the
`lumentix` repository (`TicketsService` in `tickets.service.ts`).

The service is embedded shallowly:
* `Payment`, `TicketEntity`, `StellarTx` mirror the entities the service reads.
* The dependency-injected collaborators (`PaymentsService.getPaymentById`,
  `StellarService.getTransaction`) are a record of functions, `Env`.
* The TypeORM ticket repository is a `TicketStore`: a list of persisted
  tickets plus a counter generating fresh ids on insert.
* Each `async` method becomes a pure function returning the thrown exception
  or the returned entity (`Except Err`) together with the store after the call.
* JavaScript truthiness is modelled explicitly: `!payment.transactionHash`
  and `!memoValue` are true for the empty string as well as for
  `null`/`undefined`, so both tests are embedded as a `none`-or-`""` check.
-/

/-- Payment status enum (`payment.entity.ts` is outside the extracted core;
the service only distinguishes `CONFIRMED` from everything else). -/
inductive PaymentStatus
  | PENDING
  | CONFIRMED
  | FAILED
deriving DecidableEq, Repr

/-- The fields of a payment record read by `TicketsService.issueTicket`. -/
structure Payment where
  id : String
  status : PaymentStatus
  transactionHash : Option String
  eventId : String
  userId : String
  currency : String
deriving DecidableEq, Repr

/-- The on-chain representation of a transaction memo: either a plain text
string (`typeof tx.memo === 'string'`) or some other encoding / absent value. -/
inductive MemoValue
  | text (s : String)
  | nonText
deriving DecidableEq, Repr

/-- The part of a fetched Stellar transaction the service reads. -/
structure StellarTx where
  memo : MemoValue
deriving DecidableEq, Repr

/-- A persisted ticket row (`TicketEntity`). -/
structure TicketEntity where
  id : String
  eventId : String
  ownerId : String
  assetCode : String
  transactionHash : String
  status : String
deriving DecidableEq, Repr

/-- The ticket repository: the list of persisted rows plus the id generator
used when a new row is inserted. -/
structure TicketStore where
  tickets : List TicketEntity
  nextId : Nat
deriving DecidableEq, Repr

/-- The three exception kinds thrown by the service
(`BadRequestException`, `NotFoundException`, `ForbiddenException`),
each carrying its message, plus the propagated failure of the chain fetcher. -/
inductive Err
  | invalidRequest (msg : String)
  | notFound (msg : String)
  | forbidden (msg : String)
  | fetchFailed
deriving DecidableEq, Repr

/-- The collaborators injected into `TicketsService`: payment lookup and
chain-transaction fetch, each modelled as a partial function whose `none`
result stands for the collaborator's own failure. -/
structure Env where
  getPaymentById : String → Option Payment
  getTransaction : String → Option StellarTx

/-- `ticketRepo.findOne({ where: { transactionHash: h } })`. -/
def findOneByTxHash (store : TicketStore) (h : String) : Option TicketEntity :=
  store.tickets.find? (fun t => t.transactionHash == h)

/-- `ticketRepo.findOne({ where: { id: i } })`. -/
def findOneById (store : TicketStore) (i : String) : Option TicketEntity :=
  store.tickets.find? (fun t => t.id == i)

/-- `ticketRepo.save` on a freshly created entity: the row is inserted and
receives a generated id. -/
def saveNew (store : TicketStore) (t : TicketEntity) : TicketEntity × TicketStore :=
  let saved := { t with id := toString store.nextId }
  (saved, { tickets := store.tickets ++ [saved], nextId := store.nextId + 1 })

/-- `ticketRepo.save` on an already-persisted entity: the row with that
primary key is updated in place. -/
def saveExisting (store : TicketStore) (t : TicketEntity) : TicketEntity × TicketStore :=
  (t, { store with tickets := store.tickets.map (fun u => if u.id = t.id then t else u) })

/-- `typeof tx.memo === 'string' ? tx.memo : undefined` (lines 44–45). -/
def memoAsString : MemoValue → Option String
  | .text s => some s
  | .nonText => none

/-- Message of the missing-memo `BadRequestException` (lines 47–51). -/
def missingMemoMsg : String :=
  "Transaction is missing memo. Cannot verify payment reference."

/-- Message of the memo-mismatch `BadRequestException` (lines 53–57). -/
def memoMismatchMsg (pid m : String) : String :=
  "Transaction memo does not match paymentId. Expected \"" ++ pid ++
    "\", got \"" ++ m ++ "\"."

/-- `TicketsService.issueTicket` (lines 24–68), embedded step for step.
Returns the thrown exception or the returned ticket, paired with the store
after the call. -/
def issueTicket (env : Env) (store : TicketStore) (paymentId : String) :
    Except Err TicketEntity × TicketStore :=
  match env.getPaymentById paymentId with
  | none => (.error (.notFound "Payment not found"), store)
  | some payment =>
    if payment.status ≠ PaymentStatus.CONFIRMED then
      (.error (.invalidRequest "Payment not confirmed"), store)
    else
      match payment.transactionHash with
      | none => (.error (.invalidRequest "Payment has no transaction hash"), store)
      | some txHash =>
        if txHash = "" then
          (.error (.invalidRequest "Payment has no transaction hash"), store)
        else
          match findOneByTxHash store txHash with
          | some existing => (.ok existing, store)
          | none =>
            match env.getTransaction txHash with
            | none => (.error .fetchFailed, store)
            | some tx =>
              match memoAsString tx.memo with
              | none => (.error (.invalidRequest missingMemoMsg), store)
              | some memoValue =>
                if memoValue = "" then
                  (.error (.invalidRequest missingMemoMsg), store)
                else if memoValue ≠ payment.id then
                  (.error (.invalidRequest (memoMismatchMsg payment.id memoValue)), store)
                else
                  let ticket : TicketEntity :=
                    { id := ""
                      eventId := payment.eventId
                      ownerId := payment.userId
                      assetCode := payment.currency
                      transactionHash := txHash
                      status := "valid" }
                  let res := saveNew store ticket
                  (.ok res.1, res.2)

/-- `TicketsService.transferTicket` (lines 70–88), embedded step for step. -/
def transferTicket (store : TicketStore) (ticketId callerOwnerId newOwnerId : String) :
    Except Err TicketEntity × TicketStore :=
  match findOneById store ticketId with
  | none => (.error (.notFound "Ticket not found"), store)
  | some ticket =>
    if ticket.ownerId ≠ callerOwnerId then
      (.error (.forbidden "Not ticket owner"), store)
    else if ticket.status ≠ "valid" then
      (.error (.invalidRequest "Ticket not transferable"), store)
    else
      let res := saveExisting store { ticket with ownerId := newOwnerId }
      (.ok res.1, res.2)

/-- At most one persisted ticket per transaction hash. -/
def atMostOnePerHash (store : TicketStore) : Prop :=
  ∀ h : String, (store.tickets.filter (fun t => t.transactionHash == h)).length ≤ 1

/-- Ticket ids are pairwise distinct (the store's primary-key constraint). -/
def idsUnique (store : TicketStore) : Prop :=
  (store.tickets.map (fun t => t.id)).Nodup

/-! ### Concrete fixtures (the spec's scenario data), used by witnesses -/

/-- The spec scenario's payment `p1`. -/
def paymentP1 : Payment :=
  { id := "p1", status := .CONFIRMED, transactionHash := some "tx1",
    eventId := "e1", userId := "u1", currency := "USDC" }

/-- Collaborators for the scenario: payment `p1` exists, chain transaction
`tx1` carries the plain-text memo `p1`. -/
def envP1 : Env :=
  { getPaymentById := fun s => if s = "p1" then some paymentP1 else none,
    getTransaction := fun h => if h = "tx1" then some { memo := .text "p1" } else none }

/-- An empty ticket store. -/
def store0 : TicketStore := { tickets := [], nextId := 7 }

/-- The ticket minted for the scenario. -/
def ticketA : TicketEntity :=
  { id := "7", eventId := "e1", ownerId := "u1", assetCode := "USDC",
    transactionHash := "tx1", status := "valid" }

/-- A store already holding `ticketA`. -/
def store1 : TicketStore := { tickets := [ticketA], nextId := 8 }

/-! ### Helper lemmas -/

/-- Updating the row whose primary key the `find?`-by-id lookup hit replaces
exactly the found row in the lookup's view. -/
theorem find?_map_update (l : List TicketEntity) (tid : String) (t t' : TicketEntity)
    (h : l.find? (fun u => u.id == tid) = some t) (hid : t'.id = t.id) :
    (l.map (fun u => if u.id = t.id then t' else u)).find? (fun u => u.id == tid)
      = some t' := by
  have htid : t.id = tid := by simpa using List.find?_some h
  induction l with
  | nil => simp at h
  | cons a l ih =>
    by_cases ha : a.id = tid
    · have hat : a = t := by
        rw [List.find?_cons_of_pos] at h
        · exact (Option.some.inj h)
        · simpa using ha
      subst hat
      simp only [List.map_cons]
      rw [if_pos trivial, List.find?_cons_of_pos]
      simp [hid, htid]
    · have h' : l.find? (fun u => u.id == tid) = some t := by
        rwa [List.find?_cons_of_neg] at h
        simpa using ha
      have hat : ¬ a.id = t.id := by rw [htid]; exact ha
      simp only [List.map_cons, if_neg hat]
      rw [List.find?_cons_of_neg]
      · exact ih h'
      · simpa using ha

/-! ### Transfer claims -/

/-- C7: `transferTicket` fails with `NotFound` when no ticket with `ticketId`
exists; otherwise with `Forbidden` when the ticket's owner differs from the
caller (store unchanged); otherwise with `InvalidRequest` when the status is
not `valid`; the checks occur in that order and no other error kind is
raised. -/
theorem transferTicket_error_taxonomy (store : TicketStore)
    (tid caller newOwner : String) :
    (findOneById store tid = none →
      transferTicket store tid caller newOwner
        = (.error (.notFound "Ticket not found"), store)) ∧
    (∀ t, findOneById store tid = some t → t.ownerId ≠ caller →
      transferTicket store tid caller newOwner
        = (.error (.forbidden "Not ticket owner"), store)) ∧
    (∀ t, findOneById store tid = some t → t.ownerId = caller → t.status ≠ "valid" →
      transferTicket store tid caller newOwner
        = (.error (.invalidRequest "Ticket not transferable"), store)) ∧
    (∀ e s', transferTicket store tid caller newOwner = (.error e, s') →
      e = .notFound "Ticket not found" ∨ e = .forbidden "Not ticket owner" ∨
        e = .invalidRequest "Ticket not transferable") := by
  refine ⟨?_, ?_, ?_, ?_⟩
  · intro h; simp [transferTicket, h]
  · intro t hf ho; simp [transferTicket, hf, ho]
  · intro t hf ho hs; simp [transferTicket, hf, ho, hs]
  · intro e s' h
    rcases hf : findOneById store tid with _ | t
    · simp [transferTicket, hf] at h
      exact Or.inl h.1.symm
    · by_cases ho : t.ownerId = caller
      · by_cases hs : t.status = "valid"
        · simp [transferTicket, hf, ho, hs] at h
        · simp [transferTicket, hf, ho, hs] at h
          exact Or.inr (Or.inr h.1.symm)
      · simp [transferTicket, hf, ho] at h
        exact Or.inr (Or.inl h.1.symm)

/-- C7 witness: concrete absent ticket, wrong caller, and non-valid status
each produce the stated error, and the error kinds are exhaustive. -/
theorem transferTicket_error_taxonomy_witness :
    transferTicket store1 "9" "u1" "u2"
      = (.error (.notFound "Ticket not found"), store1) ∧
    transferTicket store1 "7" "u9" "u2"
      = (.error (.forbidden "Not ticket owner"), store1) := by
  constructor
  · exact (transferTicket_error_taxonomy store1 "9" "u1" "u2").1 (by decide)
  · exact (transferTicket_error_taxonomy store1 "7" "u9" "u2").2.1
      ticketA (by decide) (by decide)

/-- C8: on a valid-status, owner-matching transfer, `transferTicket` sets
`ownerId` to `newOwnerId`, persists the ticket, and leaves `status` and every
other field (`id`, `eventId`, `assetCode`, `transactionHash`) unchanged. -/
theorem transferTicket_frame_on_success (store : TicketStore)
    (tid caller newOwner : String) (t : TicketEntity)
    (hf : findOneById store tid = some t)
    (ho : t.ownerId = caller) (hs : t.status = "valid") :
    ∃ t' store', transferTicket store tid caller newOwner = (.ok t', store') ∧
      t'.ownerId = newOwner ∧ t'.id = t.id ∧ t'.eventId = t.eventId ∧
      t'.assetCode = t.assetCode ∧ t'.transactionHash = t.transactionHash ∧
      t'.status = t.status ∧ t' ∈ store'.tickets := by
  refine ⟨{ t with ownerId := newOwner },
    { store with tickets := store.tickets.map (fun u => if u.id = t.id then { t with ownerId := newOwner } else u) },
    ?_, rfl, rfl, rfl, rfl, rfl, rfl, ?_⟩
  · simp [transferTicket, hf, ho, hs, saveExisting]
  · have hmem : t ∈ store.tickets := List.mem_of_find?_eq_some hf
    have := List.mem_map_of_mem
      (fun u => if u.id = t.id then { t with ownerId := newOwner } else u) hmem
    simpa using this

/-- C8 witness: transferring `ticketA` from `u1` to `u2` succeeds with only
`ownerId` changed and the updated row persisted. -/
theorem transferTicket_frame_on_success_witness :
    ∃ t' store', transferTicket store1 "7" "u1" "u2" = (.ok t', store') ∧
      t'.ownerId = "u2" ∧ t'.id = ticketA.id ∧ t'.eventId = ticketA.eventId ∧
      t'.assetCode = ticketA.assetCode ∧
      t'.transactionHash = ticketA.transactionHash ∧
      t'.status = ticketA.status ∧ t' ∈ store'.tickets :=
  transferTicket_frame_on_success store1 "7" "u1" "u2" ticketA
    (by decide) (by decide) (by decide)

/-- C9 (implicit): `transferTicket` places no constraint on `newOwnerId`:
for a valid ticket owned by the caller, the transfer succeeds for every new
owner string, including the current owner and the empty string, and
afterwards the ticket's `ownerId` is that string. -/
theorem transferTicket_newOwner_unconstrained (store : TicketStore)
    (tid A : String) (t : TicketEntity)
    (hf : findOneById store tid = some t)
    (ho : t.ownerId = A) (hs : t.status = "valid") :
    ∀ N : String, ∃ store',
      transferTicket store tid A N = (.ok { t with ownerId := N }, store') ∧
      findOneById store' tid = some { t with ownerId := N } := by
  intro N
  refine ⟨{ store with tickets := store.tickets.map (fun u => if u.id = t.id then { t with ownerId := N } else u) }, ?_, ?_⟩
  · simp [transferTicket, hf, ho, hs, saveExisting]
  · exact find?_map_update store.tickets tid t { t with ownerId := N } hf rfl

/-- C9 witness: self-transfer (`u1` → `u1`) and transfer to the empty string
both succeed, and the persisted row afterwards carries that owner. -/
theorem transferTicket_newOwner_unconstrained_witness :
    (∃ store', transferTicket store1 "7" "u1" "u1"
        = (.ok { ticketA with ownerId := "u1" }, store') ∧
      findOneById store' "7" = some { ticketA with ownerId := "u1" }) ∧
    (∃ store', transferTicket store1 "7" "u1" ""
        = (.ok { ticketA with ownerId := "" }, store') ∧
      findOneById store' "7" = some { ticketA with ownerId := "" }) :=
  ⟨transferTicket_newOwner_unconstrained store1 "7" "u1" ticketA
      (by decide) (by decide) (by decide) "u1",
   transferTicket_newOwner_unconstrained store1 "7" "u1" ticketA
      (by decide) (by decide) (by decide) ""⟩

/-- The ticket row inserted by a successful fresh issuance. -/
def mintedTicket (payment : Payment) (txHash : String) (n : Nat) : TicketEntity :=
  { id := toString n, eventId := payment.eventId, ownerId := payment.userId,
    assetCode := payment.currency, transactionHash := txHash, status := "valid" }

/-- When a ticket with the payment's transaction hash already exists, and the
payment guards pass, `issueTicket` returns it and leaves the store unchanged. -/
theorem issueTicket_on_existing (env : Env) (store : TicketStore) (pid : String)
    (payment : Payment) (h : String) (t : TicketEntity)
    (hp : env.getPaymentById pid = some payment)
    (hs : payment.status = PaymentStatus.CONFIRMED)
    (hh : payment.transactionHash = some h) (hne : h ≠ "")
    (hex : findOneByTxHash store h = some t) :
    issueTicket env store pid = (.ok t, store) := by
  simp [issueTicket, hp, hs, hh, hne, hex]

/-- Exhaustive case analysis of `issueTicket`: every call either fails leaving
the store unchanged, returns an already-stored ticket unchanged, or — only
when every guard passed and the hash lookup found nothing — appends exactly
the minted row. -/
theorem issueTicket_cases (env : Env) (store : TicketStore) (pid : String) :
    (∃ e, issueTicket env store pid = (.error e, store)) ∨
    (∃ payment h t, env.getPaymentById pid = some payment ∧
      payment.status = PaymentStatus.CONFIRMED ∧
      payment.transactionHash = some h ∧ h ≠ "" ∧
      findOneByTxHash store h = some t ∧
      issueTicket env store pid = (.ok t, store)) ∨
    (∃ payment h tx, env.getPaymentById pid = some payment ∧
      payment.status = PaymentStatus.CONFIRMED ∧
      payment.transactionHash = some h ∧ h ≠ "" ∧
      findOneByTxHash store h = none ∧
      env.getTransaction h = some tx ∧ tx.memo = .text payment.id ∧
      payment.id ≠ "" ∧
      issueTicket env store pid = (.ok (mintedTicket payment h store.nextId),
        { tickets := store.tickets ++ [mintedTicket payment h store.nextId],
          nextId := store.nextId + 1 })) := by
  rcases hp : env.getPaymentById pid with _ | payment
  · exact Or.inl ⟨.notFound "Payment not found", by simp [issueTicket, hp]⟩
  by_cases hs : payment.status = PaymentStatus.CONFIRMED
  case neg =>
    exact Or.inl ⟨.invalidRequest "Payment not confirmed", by simp [issueTicket, hp, hs]⟩
  rcases hh : payment.transactionHash with _ | h
  · exact Or.inl ⟨.invalidRequest "Payment has no transaction hash",
      by simp [issueTicket, hp, hs, hh]⟩
  by_cases hne : h = ""
  case pos =>
    exact Or.inl ⟨.invalidRequest "Payment has no transaction hash",
      by simp [issueTicket, hp, hs, hh, hne]⟩
  rcases hex : findOneByTxHash store h with _ | ex
  · rcases htx : env.getTransaction h with _ | tx
    · exact Or.inl ⟨.fetchFailed, by simp [issueTicket, hp, hs, hh, hne, hex, htx]⟩
    rcases tx with ⟨mv⟩
    rcases mv with s | _
    · by_cases hm0 : s = ""
      case pos =>
        exact Or.inl ⟨.invalidRequest missingMemoMsg,
          by simp [issueTicket, hp, hs, hh, hne, hex, htx, memoAsString, hm0]⟩
      by_cases hmp : s = payment.id
      case neg =>
        exact Or.inl ⟨.invalidRequest (memoMismatchMsg payment.id s),
          by simp [issueTicket, hp, hs, hh, hne, hex, htx, memoAsString, hm0, hmp]⟩
      refine Or.inr (Or.inr ⟨payment, h, { memo := .text s }, ?_, hs, ?_, hne, ?_, ?_, ?_, ?_, ?_⟩)
      all_goals simp_all [issueTicket, memoAsString, saveNew, mintedTicket]
    · exact Or.inl ⟨.invalidRequest missingMemoMsg,
        by simp [issueTicket, hp, hs, hh, hne, hex, htx, memoAsString]⟩
  · refine Or.inr (Or.inl ⟨payment, h, ex, ?_, hs, ?_, hne, ?_, ?_⟩) <;>
      simp_all [issueTicket]

/-! ### Issuance claims -/

deriving instance DecidableEq for Except

/-- A payment identical to the scenario's `p1` except that its identifier is
the empty string. -/
def paymentEmptyId : Payment := { paymentP1 with id := "" }

/-- Collaborators for the empty-id payment: the chain transaction carries a
plain-text memo equal to that payment's (empty) identifier. -/
def envEmptyId : Env :=
  { getPaymentById := fun _ => some paymentEmptyId,
    getTransaction := fun _ => some { memo := .text "" } }

/-- C1 counterexample: a CONFIRMED payment with hash `tx1`, no existing
ticket, and a plain-text memo exactly equal to the payment's id — but the id
is the empty string. The claim predicts a persisted `valid` ticket; the code
instead throws the missing-memo `BadRequestException`, because the falsy
empty-string memo is treated as absent. -/
theorem issueTicket_matching_memo_fails_on_empty_id :
    issueTicket envEmptyId store0 ""
      = (.error (.invalidRequest missingMemoMsg), store0) := by
  decide

/-- C1 (amended): for every CONFIRMED payment with a non-empty transaction
hash `H`, no existing ticket for `H`, a chain transaction whose plain-text
memo equals the payment's id, and a non-empty payment id, `issueTicket`
persists and returns a new ticket whose `eventId`/`ownerId`/`assetCode` are
copied from the payment's `eventId`/`userId`/`currency`, whose
`transactionHash` is `H`, and whose status is `valid`. -/
theorem issueTicket_success_fields (env : Env) (store : TicketStore)
    (pid : String) (payment : Payment) (h : String) (tx : StellarTx)
    (hp : env.getPaymentById pid = some payment)
    (hs : payment.status = PaymentStatus.CONFIRMED)
    (hh : payment.transactionHash = some h) (hne : h ≠ "")
    (hex : findOneByTxHash store h = none)
    (htx : env.getTransaction h = some tx)
    (hmemo : tx.memo = .text payment.id) (hpid : payment.id ≠ "") :
    ∃ t store', issueTicket env store pid = (.ok t, store') ∧
      t.eventId = payment.eventId ∧ t.ownerId = payment.userId ∧
      t.assetCode = payment.currency ∧ t.transactionHash = h ∧
      t.status = "valid" ∧ store'.tickets = store.tickets ++ [t] := by
  refine ⟨mintedTicket payment h store.nextId,
    { tickets := store.tickets ++ [mintedTicket payment h store.nextId],
      nextId := store.nextId + 1 },
    ?_, rfl, rfl, rfl, rfl, rfl, rfl⟩
  simp [issueTicket, hp, hs, hh, hne, hex, htx, hmemo, memoAsString, hpid,
    saveNew, mintedTicket]

/-- C1 witness: the spec scenario (payment `p1`, transaction `tx1` with memo
`p1`) yields a persisted `valid` ticket with the copied fields. -/
theorem issueTicket_success_fields_witness :
    ∃ t store', issueTicket envP1 store0 "p1" = (.ok t, store') ∧
      t.eventId = paymentP1.eventId ∧ t.ownerId = paymentP1.userId ∧
      t.assetCode = paymentP1.currency ∧ t.transactionHash = "tx1" ∧
      t.status = "valid" ∧ store'.tickets = store0.tickets ++ [t] :=
  issueTicket_success_fields envP1 store0 "p1" paymentP1 "tx1"
    { memo := .text "p1" } (by decide) (by decide) (by decide) (by decide)
    (by decide) (by decide) (by decide) (by decide)

/-- C2: issuance is idempotent per transaction hash. If a ticket with the
payment's hash already exists, `issueTicket` returns it with the store
unchanged, for every chain-transaction fetcher (so the chain transaction is
never consulted and nothing is created); and a second call after any
successful call returns the same ticket with the store unchanged, so no
second ticket for the hash is ever created. -/
theorem issueTicket_idempotent (env : Env) (store : TicketStore) (pid : String) :
    (∀ payment h t, env.getPaymentById pid = some payment →
      payment.status = PaymentStatus.CONFIRMED →
      payment.transactionHash = some h → h ≠ "" →
      findOneByTxHash store h = some t →
      ∀ f, issueTicket { env with getTransaction := f } store pid = (.ok t, store)) ∧
    (∀ t store₁, issueTicket env store pid = (.ok t, store₁) →
      issueTicket env store₁ pid = (.ok t, store₁)) := by
  constructor
  · intro payment h t hp hs hh hne hex f
    exact issueTicket_on_existing _ store pid payment h t hp hs hh hne hex
  · intro t store₁ hcall
    rcases issueTicket_cases env store pid with ⟨e, he⟩ |
      ⟨payment, h, t', hp, hs, hh, hne, hex, heq⟩ |
      ⟨payment, h, tx, hp, hs, hh, hne, hex, htx, hmemo, hpid, heq⟩
    · rw [he] at hcall
      simp at hcall
    · rw [heq] at hcall
      obtain ⟨ht, hst⟩ : t' = t ∧ store = store₁ := by simpa using hcall
      subst ht
      subst hst
      exact heq
    · rw [heq] at hcall
      obtain ⟨ht, hst⟩ : mintedTicket payment h store.nextId = t ∧
          ({ tickets := store.tickets ++ [mintedTicket payment h store.nextId],
             nextId := store.nextId + 1 } : TicketStore) = store₁ := by
        simpa using hcall
      have hnone : store.tickets.find? (fun u => u.transactionHash == h) = none := hex
      have hfind : findOneByTxHash store₁ h = some t := by
        rw [← hst]
        unfold findOneByTxHash
        simp [List.find?_append, hnone, ← ht, mintedTicket]
      exact issueTicket_on_existing env store₁ pid payment h t hp hs hh hne hfind

/-- C2 witness: with `ticketA` already stored for hash `tx1`, issuance
returns it unchanged even under a fetcher that knows no transaction; and
after the scenario's first issuance (which mints `ticketA`), a second call
returns the same ticket with the same store. -/
theorem issueTicket_idempotent_witness :
    issueTicket { envP1 with getTransaction := fun _ => none } store1 "p1"
      = (.ok ticketA, store1) ∧
    issueTicket envP1 store1 "p1" = (.ok ticketA, store1) :=
  ⟨(issueTicket_idempotent envP1 store1 "p1").1 paymentP1 "tx1" ticketA
      (by decide) (by decide) (by decide) (by decide) (by decide)
      (fun _ => none),
   (issueTicket_idempotent envP1 store0 "p1").2 ticketA store1 (by decide)⟩

/-- Collaborators whose chain transaction carries a non-text (e.g.
hash-encoded) memo. -/
def envNonTextMemo : Env :=
  { envP1 with getTransaction := fun h =>
      if h = "tx1" then some { memo := .nonText } else none }

/-- Collaborators whose chain transaction carries the plain-text memo
`other`, unrelated to payment `p1`. -/
def envOtherMemo : Env :=
  { envP1 with getTransaction := fun h =>
      if h = "tx1" then some { memo := .text "other" } else none }

/-- C3: for a confirmed payment with a usable hash and no existing ticket,
a fetched transaction whose memo is not a plain-text string is treated as
having no memo and rejected with the missing-memo `InvalidRequest`; a
plain-text memo differing from the payment's id is rejected with an
`InvalidRequest`; and issuance reaches ticket creation only when the memo is
a plain-text string equal to the payment's id. -/
theorem issueTicket_memo_validation (env : Env) (store : TicketStore)
    (pid : String) (payment : Payment) (h : String) (tx : StellarTx)
    (hp : env.getPaymentById pid = some payment)
    (hs : payment.status = PaymentStatus.CONFIRMED)
    (hh : payment.transactionHash = some h) (hne : h ≠ "")
    (hex : findOneByTxHash store h = none)
    (htx : env.getTransaction h = some tx) :
    (memoAsString tx.memo = none →
      issueTicket env store pid = (.error (.invalidRequest missingMemoMsg), store)) ∧
    (∀ m, memoAsString tx.memo = some m → m ≠ payment.id →
      ∃ msg, issueTicket env store pid = (.error (.invalidRequest msg), store)) ∧
    (∀ t store', issueTicket env store pid = (.ok t, store') →
      tx.memo = .text payment.id) := by
  refine ⟨?_, ?_, ?_⟩
  · intro hm
    simp [issueTicket, hp, hs, hh, hne, hex, htx, hm]
  · intro m hm hmp
    by_cases hm0 : m = ""
    · exact ⟨missingMemoMsg, by simp [issueTicket, hp, hs, hh, hne, hex, htx, hm, hm0]⟩
    · exact ⟨memoMismatchMsg payment.id m,
        by simp [issueTicket, hp, hs, hh, hne, hex, htx, hm, hm0, hmp]⟩
  · intro t store' hok
    rcases issueTicket_cases env store pid with ⟨e, he⟩ |
      ⟨payment', h', t', hp', hs', hh', hne', hex', heq⟩ |
      ⟨payment', h', tx', hp', hs', hh', hne', hex', htx', hmemo', hpid', heq⟩
    · rw [he] at hok
      simp at hok
    · rw [hp] at hp'
      obtain rfl : payment = payment' := Option.some.inj hp'
      rw [hh] at hh'
      obtain rfl : h = h' := Option.some.inj hh'
      rw [hex] at hex'
      simp at hex'
    · rw [hp] at hp'
      obtain rfl : payment = payment' := Option.some.inj hp'
      rw [hh] at hh'
      obtain rfl : h = h' := Option.some.inj hh'
      rw [htx] at htx'
      obtain rfl : tx = tx' := Option.some.inj htx'
      exact hmemo'

/-- C3 witness: a non-text memo yields the missing-memo error, and the
plain-text memo `other` (≠ `p1`) yields an `InvalidRequest` error. -/
theorem issueTicket_memo_validation_witness :
    issueTicket envNonTextMemo store0 "p1"
      = (.error (.invalidRequest missingMemoMsg), store0) ∧
    (∃ msg, issueTicket envOtherMemo store0 "p1"
      = (.error (.invalidRequest msg), store0)) :=
  ⟨(issueTicket_memo_validation envNonTextMemo store0 "p1" paymentP1 "tx1"
      { memo := .nonText } (by decide) (by decide) (by decide) (by decide)
      (by decide) (by decide)).1 (by decide),
   (issueTicket_memo_validation envOtherMemo store0 "p1" paymentP1 "tx1"
      { memo := .text "other" } (by decide) (by decide) (by decide) (by decide)
      (by decide) (by decide)).2.1 "other" (by decide) (by decide)⟩

/-- The scenario's payment with status `PENDING` instead of `CONFIRMED`. -/
def paymentPending : Payment := { paymentP1 with status := .PENDING }

/-- The scenario's payment without a transaction hash. -/
def paymentNoHash : Payment := { paymentP1 with transactionHash := none }

/-- Payment lookup returning the pending payment. -/
def envPending : Env :=
  { getPaymentById := fun _ => some paymentPending,
    getTransaction := fun _ => none }

/-- Payment lookup returning the hashless payment. -/
def envNoHash : Env :=
  { getPaymentById := fun _ => some paymentNoHash,
    getTransaction := fun _ => none }

/-- C5: fail-fast guards. A found payment that is not CONFIRMED makes
`issueTicket` fail with the not-confirmed `InvalidRequest`, and a confirmed
payment lacking a transaction hash (absent or JS-falsy empty) fails with the
no-hash `InvalidRequest` — in both cases for every ticket store and every
chain fetcher, with the store returned unchanged, so neither collaborator
influences the outcome. -/
theorem issueTicket_guards_failfast (env : Env) (pid : String)
    (payment : Payment) (hp : env.getPaymentById pid = some payment) :
    (payment.status ≠ PaymentStatus.CONFIRMED →
      ∀ store f, issueTicket { env with getTransaction := f } store pid
        = (.error (.invalidRequest "Payment not confirmed"), store)) ∧
    (payment.status = PaymentStatus.CONFIRMED →
      payment.transactionHash = none ∨ payment.transactionHash = some "" →
      ∀ store f, issueTicket { env with getTransaction := f } store pid
        = (.error (.invalidRequest "Payment has no transaction hash"), store)) := by
  constructor
  · intro hs store f
    simp [issueTicket, hp, hs]
  · intro hs hh store f
    rcases hh with hh | hh <;> simp [issueTicket, hp, hs, hh]

/-- C5 witness: the pending payment and the hashless payment each fail with
the stated `InvalidRequest` on a nonempty store and a fetcher that knows no
transaction. -/
theorem issueTicket_guards_failfast_witness :
    issueTicket { envPending with getTransaction := fun _ => none } store1 "p1"
      = (.error (.invalidRequest "Payment not confirmed"), store1) ∧
    issueTicket { envNoHash with getTransaction := fun _ => none } store1 "p1"
      = (.error (.invalidRequest "Payment has no transaction hash"), store1) :=
  ⟨(issueTicket_guards_failfast envPending "p1" paymentPending (by decide)).1
      (by decide) store1 (fun _ => none),
   (issueTicket_guards_failfast envNoHash "p1" paymentNoHash (by decide)).2
      (by decide) (Or.inl (by decide)) store1 (fun _ => none)⟩

/-- C6 counterexample: with `ticketA` already stored for hash `tx1`, the
call succeeds (idempotency path) yet persists nothing — the store is
returned unchanged, so a successful call does not always persist exactly one
ticket. -/
theorem issueTicket_success_persists_zero :
    issueTicket envP1 store1 "p1" = (.ok ticketA, store1) ∧
    (issueTicket envP1 store1 "p1").2.tickets.length = store1.tickets.length := by
  constructor
  · decide
  · decide

/-- C6 (amended): on every failure path the store is unchanged; on success
either the returned ticket was already stored and the store is unchanged
(idempotency path), or exactly one ticket — the returned one — is appended. -/
theorem issueTicket_atomicity (env : Env) (store : TicketStore) (pid : String) :
    (∀ e store', issueTicket env store pid = (.error e, store') → store' = store) ∧
    (∀ t store', issueTicket env store pid = (.ok t, store') →
      (store' = store ∧ t ∈ store.tickets) ∨
      store'.tickets = store.tickets ++ [t]) := by
  constructor
  · intro e store' hcall
    rcases issueTicket_cases env store pid with ⟨e', he⟩ |
      ⟨payment, h, t', hp, hs, hh, hne, hex, heq⟩ |
      ⟨payment, h, tx, hp, hs, hh, hne, hex, htx, hmemo, hpid, heq⟩
    · rw [he] at hcall
      exact ((by simpa using hcall : e' = e ∧ store = store')).2.symm
    · rw [heq] at hcall
      simp at hcall
    · rw [heq] at hcall
      simp at hcall
  · intro t store' hcall
    rcases issueTicket_cases env store pid with ⟨e', he⟩ |
      ⟨payment, h, t', hp, hs, hh, hne, hex, heq⟩ |
      ⟨payment, h, tx, hp, hs, hh, hne, hex, htx, hmemo, hpid, heq⟩
    · rw [he] at hcall
      simp at hcall
    · rw [heq] at hcall
      obtain ⟨ht, hst⟩ : t' = t ∧ store = store' := by simpa using hcall
      exact Or.inl ⟨hst.symm, ht ▸ List.mem_of_find?_eq_some hex⟩
    · rw [heq] at hcall
      obtain ⟨ht, hst⟩ : mintedTicket payment h store.nextId = t ∧
          ({ tickets := store.tickets ++ [mintedTicket payment h store.nextId],
             nextId := store.nextId + 1 } : TicketStore) = store' := by
        simpa using hcall
      right
      rw [← hst, ht]

/-- C6 witness: a failing lookup leaves the empty store unchanged, and the
scenario's successful fresh issuance appends exactly the minted ticket. -/
theorem issueTicket_atomicity_witness :
    store0 = store0 ∧
    ((store1 = store0 ∧ ticketA ∈ store0.tickets) ∨
      store1.tickets = store0.tickets ++ [ticketA]) :=
  ⟨(issueTicket_atomicity envP1 store0 "nope").1
      (.notFound "Payment not found") store0 (by decide),
   (issueTicket_atomicity envP1 store0 "p1").2 ticketA store1 (by decide)⟩

/-- Collaborators whose chain transaction carries a plain-text memo equal to
the empty string, for the scenario's payment `p1`. -/
def envEmptyTextMemo : Env :=
  { envP1 with getTransaction := fun h =>
      if h = "tx1" then some { memo := .text "" } else none }

/-- C10 (implicit): a plain-text memo equal to the empty string is JS-falsy,
so `issueTicket` raises the missing-memo `InvalidRequest` (not the mismatch
one); consequently a payment whose id is the empty string can never pass
memo validation — with no pre-existing ticket for its hash, issuance never
succeeds. -/
theorem issueTicket_empty_text_memo (env : Env) (store : TicketStore)
    (pid : String) (payment : Payment) (h : String) (tx : StellarTx)
    (hp : env.getPaymentById pid = some payment)
    (hs : payment.status = PaymentStatus.CONFIRMED)
    (hh : payment.transactionHash = some h) (hne : h ≠ "")
    (hex : findOneByTxHash store h = none)
    (htx : env.getTransaction h = some tx) :
    (tx.memo = .text "" →
      issueTicket env store pid = (.error (.invalidRequest missingMemoMsg), store)) ∧
    (payment.id = "" → ∀ t store', issueTicket env store pid ≠ (.ok t, store')) := by
  constructor
  · intro hm
    simp [issueTicket, hp, hs, hh, hne, hex, htx, hm, memoAsString]
  · intro hid t store' hok
    rcases issueTicket_cases env store pid with ⟨e', he⟩ |
      ⟨payment', h', t', hp', hs', hh', hne', hex', heq⟩ |
      ⟨payment', h', tx', hp', hs', hh', hne', hex', htx', hmemo', hpid', heq⟩
    · rw [he] at hok
      simp at hok
    · rw [hp] at hp'
      obtain rfl : payment = payment' := Option.some.inj hp'
      rw [hh] at hh'
      obtain rfl : h = h' := Option.some.inj hh'
      rw [hex] at hex'
      simp at hex'
    · rw [hp] at hp'
      obtain rfl : payment = payment' := Option.some.inj hp'
      exact hpid' hid

/-- C10 witness: memo `""` for payment `p1` produces the missing-memo error,
and issuance for the empty-id payment never returns a ticket. -/
theorem issueTicket_empty_text_memo_witness :
    issueTicket envEmptyTextMemo store0 "p1"
      = (.error (.invalidRequest missingMemoMsg), store0) ∧
    issueTicket envEmptyId store0 "" ≠ (.ok ticketA, store1) :=
  ⟨(issueTicket_empty_text_memo envEmptyTextMemo store0 "p1" paymentP1 "tx1"
      { memo := .text "" } (by decide) (by decide) (by decide) (by decide)
      (by decide) (by decide)).1 (by decide),
   (issueTicket_empty_text_memo envEmptyId store0 "" paymentEmptyId "tx1"
      { memo := .text "" } (by decide) (by decide) (by decide) (by decide)
      (by decide) (by decide)).2 (by decide) ticketA store1⟩

/-- Two ticket lists with the same hash sequence have equal filter counts at
every hash. -/
theorem length_filter_eq_of_hashes_eq (l l' : List TicketEntity)
    (hm : l'.map (fun u => u.transactionHash) = l.map (fun u => u.transactionHash))
    (h : String) :
    (l'.filter (fun u => u.transactionHash == h)).length
      = (l.filter (fun u => u.transactionHash == h)).length := by
  have key : ∀ m : List TicketEntity,
      (m.filter (fun u => u.transactionHash == h)).length
        = List.countP (fun x => x == h) (m.map (fun u => u.transactionHash)) := by
    intro m
    rw [List.countP_map, ← List.countP_eq_length_filter]
    rfl
  rw [key, key, hm]

/-- C4: for any transaction hash at most one ticket exists, and each core
operation preserves this sequentially. `issueTicket` appends a ticket for a
hash only after its lookup for that hash found none, so the per-hash count
never exceeds one; `transferTicket` (under the store's primary-key
uniqueness) never modifies any ticket's `transactionHash` — the stored hash
sequence is preserved exactly — so the invariant is preserved as well. -/
theorem atMostOnePerHash_preserved (env : Env) (store : TicketStore)
    (pid tid caller newOwner : String) :
    (∀ r store', issueTicket env store pid = (r, store') →
      atMostOnePerHash store → atMostOnePerHash store') ∧
    (∀ r store', transferTicket store tid caller newOwner = (r, store') →
      idsUnique store →
      store'.tickets.map (fun u => u.transactionHash)
        = store.tickets.map (fun u => u.transactionHash) ∧
      (atMostOnePerHash store → atMostOnePerHash store')) := by
  constructor
  · intro r store' hcall hinv
    rcases issueTicket_cases env store pid with ⟨e', he⟩ |
      ⟨payment, h, t', hp, hs, hh, hne, hex, heq⟩ |
      ⟨payment, h, tx, hp, hs, hh, hne, hex, htx, hmemo, hpid, heq⟩
    · rw [he] at hcall
      obtain ⟨-, hst⟩ : Except.error e' = r ∧ store = store' := by simpa using hcall
      exact hst ▸ hinv
    · rw [heq] at hcall
      obtain ⟨-, hst⟩ : Except.ok t' = r ∧ store = store' := by simpa using hcall
      exact hst ▸ hinv
    · rw [heq] at hcall
      obtain ⟨-, hst⟩ : Except.ok (mintedTicket payment h store.nextId) = r ∧
          ({ tickets := store.tickets ++ [mintedTicket payment h store.nextId],
             nextId := store.nextId + 1 } : TicketStore) = store' := by
        simpa using hcall
      rw [← hst]
      intro h'
      have hnone : store.tickets.find? (fun u => u.transactionHash == h) = none := hex
      simp only [List.filter_append, List.length_append]
      by_cases hcase : h = h'
      · subst hcase
        have hnil : store.tickets.filter (fun u => u.transactionHash == h) = [] := by
          rw [List.filter_eq_nil_iff]
          intro a ha
          simpa using List.find?_eq_none.mp hnone a ha
        rw [hnil]
        simp [mintedTicket]
      · have hnil : List.filter (fun u => u.transactionHash == h')
            [mintedTicket payment h store.nextId] = [] := by
          simp [mintedTicket, hcase]
        rw [hnil]
        simpa using hinv h'
  · intro r store' hcall hids
    rcases hf : findOneById store tid with _ | ticket
    · simp only [transferTicket, hf] at hcall
      obtain ⟨-, hst⟩ : _ ∧ store = store' := by simpa using hcall
      subst hst
      exact ⟨rfl, fun hi => hi⟩
    by_cases ho : ticket.ownerId = caller
    case neg =>
      simp only [transferTicket, hf] at hcall
      rw [if_pos (by simpa using ho)] at hcall
      obtain ⟨-, hst⟩ : _ ∧ store = store' := by simpa using hcall
      subst hst
      exact ⟨rfl, fun hi => hi⟩
    by_cases hsv : ticket.status = "valid"
    case neg =>
      simp only [transferTicket, hf] at hcall
      rw [if_neg (by simpa using ho), if_pos (by simpa using hsv)] at hcall
      obtain ⟨-, hst⟩ : _ ∧ store = store' := by simpa using hcall
      subst hst
      exact ⟨rfl, fun hi => hi⟩
    simp only [transferTicket, hf] at hcall
    rw [if_neg (by simpa using ho), if_neg (by simpa using hsv)] at hcall
    simp only [saveExisting] at hcall
    obtain ⟨-, hst⟩ : _ ∧ ({ store with tickets := store.tickets.map (fun u => if u.id = ticket.id then { ticket with ownerId := newOwner } else u) } : TicketStore) = store' := by
      simpa using hcall
    have hmem : ticket ∈ store.tickets := List.mem_of_find?_eq_some hf
    have hcong : ∀ u ∈ store.tickets,
        (if u.id = ticket.id then { ticket with ownerId := newOwner } else u).transactionHash
          = u.transactionHash := by
      intro u hu
      by_cases hid : u.id = ticket.id
      · have hut : u = ticket := List.inj_on_of_nodup_map hids hu hmem hid
        rw [if_pos hid, hut]
      · rw [if_neg hid]
    have hmap : store'.tickets.map (fun u => u.transactionHash)
        = store.tickets.map (fun u => u.transactionHash) := by
      rw [← hst]
      simp only [List.map_map]
      exact List.map_congr_left hcong
    refine ⟨hmap, fun hi h' => ?_⟩
    rw [length_filter_eq_of_hashes_eq store.tickets store'.tickets hmap h']
    exact hi h'

/-- C4 witness: the scenario's fresh issuance from the empty store yields a
store satisfying the per-hash invariant, and the concrete transfer preserves
the stored hash sequence and the invariant. -/
theorem atMostOnePerHash_preserved_witness :
    atMostOnePerHash store1 ∧
    ((transferTicket store1 "7" "u1" "u2").2.tickets.map (fun u => u.transactionHash)
        = store1.tickets.map (fun u => u.transactionHash) ∧
      (atMostOnePerHash store1 →
        atMostOnePerHash (transferTicket store1 "7" "u1" "u2").2)) :=
  ⟨(atMostOnePerHash_preserved envP1 store0 "p1" "7" "u1" "u2").1
      (.ok ticketA) store1 (by decide)
      (fun h => by simp [store0]),
   (atMostOnePerHash_preserved envP1 store1 "p1" "7" "u1" "u2").2
      (.ok { ticketA with ownerId := "u2" })
      (transferTicket store1 "7" "u1" "u2").2 (by decide)
      (by simp [idsUnique, store1])⟩
